import Mathlib

/-!
Shallow embedding of the multi-party therapeutic-dialogue simulator
(trigger detection, intervention policy, speaker scheduling, PANAS
parsing and delta reconciliation), translated from the Python sources:
`config.py`, `trigger_system.py`, `intervention_system.py`,
`conversation_engine.py`, `main.py`, `session_setup.py`,
`panas_analyzer.py`.  Python strings are modelled as Lean `String`,
Python lists as `List`, dict-shaped records as structures, integers as
`Nat`/`Int`, and the float average of an intervention score as `ℚ`
(compared exactly; the decision threshold is an integer).  Calls to the
external OpenAI collaborator are modelled as explicit parameters giving
the outcome of each attempt.
-/

set_option maxRecDepth 100000

namespace TherapySim

/-- Lowercase a string character by character, mirroring Python
`str.lower()` on ASCII text. -/
def toLowerStr (s : String) : String :=
  String.mk (s.data.map Char.toLower)

/-- Auxiliary scan: does the pattern occur as a contiguous run inside
the character list, checking prefix-hood at every suffix. -/
def infixAux (pat : List Char) : List Char → Bool
  | [] => pat.isEmpty
  | c :: cs => pat.isPrefixOf (c :: cs) || infixAux pat cs

/-- Substring test: `containsStr s pat` holds when `pat` occurs inside
`s`, mirroring the Python expression `pat in s`. -/
def containsStr (s pat : String) : Bool :=
  infixAux pat.data s.data

/-- Count occurrences of a character in a string, mirroring Python
`str.count(c)` for a single-character argument. -/
def countChar (s : String) (c : Char) : Nat :=
  s.data.countP (fun x => x = c)

/-- Count of uppercase characters of a message, mirroring
`sum(1 for c in message if c.isupper())`. -/
def upperCount (s : String) : Nat :=
  s.data.countP (fun c => c.isUpper)

/-- Auxiliary scan for `splitWs`: accumulate the current token in
reverse, emitting it at each whitespace run and at the end. -/
def splitWsAux (acc : List Char) : List Char → List String
  | [] => if acc.isEmpty then [] else [String.mk acc.reverse]
  | c :: cs =>
      if c.isWhitespace then
        if acc.isEmpty then splitWsAux [] cs
        else String.mk acc.reverse :: splitWsAux [] cs
      else splitWsAux (c :: acc) cs

/-- Whitespace-delimited tokens of a string, mirroring Python
`str.split()` with no argument (runs of whitespace, empties dropped). -/
def splitWs (s : String) : List String :=
  splitWsAux [] s.data

/-- Auxiliary scan for `splitOnChar`: accumulate the current piece in
reverse, emitting it at each separator (empties kept). -/
def splitOnCharAux (sep : Char) (acc : List Char) : List Char → List String
  | [] => [String.mk acc.reverse]
  | c :: cs =>
      if c = sep then String.mk acc.reverse :: splitOnCharAux sep [] cs
      else splitOnCharAux sep (c :: acc) cs

/-- Split on a single separator character, mirroring Python
`str.split(sep)` for a one-character separator (empties kept). -/
def splitOnChar (sep : Char) (s : String) : List String :=
  splitOnCharAux sep [] s.data

/-- Strip leading and trailing whitespace from a character list. -/
def trimChars (l : List Char) : List Char :=
  ((l.dropWhile Char.isWhitespace).reverse.dropWhile Char.isWhitespace).reverse

/-- Strip leading and trailing whitespace, mirroring Python
`str.strip()`. -/
def trimStr (s : String) : String :=
  String.mk (trimChars s.data)

/-- Keyword list `DIRECT_INTERVENTION_KEYWORDS` from `config.py`. -/
def DIRECT_INTERVENTION_KEYWORDS : List String :=
  ["help us", "need guidance", "step in", "what should we do",
   "can you help", "need your help", "help please", "intervene",
   "guide us"]

/-- Keyword list `SEMANTIC_ESCALATION_KEYWORDS` from `config.py`. -/
def SEMANTIC_ESCALATION_KEYWORDS : List String :=
  ["always", "never", "hate", "sick of", "can\x27t stand",
   "ridiculous", "pathetic", "stupid", "awful", "terrible",
   "disgusted", "frustrated", "angry", "furious"]

/-- Keyword list `SEMANTIC_SELF_HARM_KEYWORDS` from `config.py`. -/
def SEMANTIC_SELF_HARM_KEYWORDS : List String :=
  ["hurt myself", "better off without me", "want to disappear",
   "end it all", "kill myself", "suicide", "suicidal", "self-harm",
   "cut myself"]

/-- Threshold `QUANTITATIVE_CONSECUTIVE_THRESHOLD = 6` from `config.py`. -/
def QUANTITATIVE_CONSECUTIVE_THRESHOLD : Nat := 6

/-- Threshold `QUANTITATIVE_WORD_THRESHOLD = 100` from `config.py`. -/
def QUANTITATIVE_WORD_THRESHOLD : Nat := 100

/-- Threshold `TIME_SILENCE_THRESHOLD = 30` from `config.py`. -/
def TIME_SILENCE_THRESHOLD : Nat := 30

/-- Threshold `INTERVENTION_THRESHOLD = 70` from `config.py`, viewed in
`ℚ` because it is compared against the (float) score average. -/
def INTERVENTION_THRESHOLD : ℚ := 70

/-- Detector `detect_help_request` from `trigger_system.py`: some direct
intervention keyword occurs in the lowercased message. -/
def detect_help_request (message : String) : Bool :=
  DIRECT_INTERVENTION_KEYWORDS.any
    (fun k => containsStr (toLowerStr message) (toLowerStr k))

/-- Count of escalation keywords contained in the lowercased message;
the keyword loop of `detect_emotional_escalation` increments the
indicator counter once per matching keyword. -/
def escalation_keyword_count (message : String) : Nat :=
  (SEMANTIC_ESCALATION_KEYWORDS.filter
    (fun k => containsStr (toLowerStr message) k)).length

/-- Caps indicator of `detect_emotional_escalation`: the message is
nonempty and its uppercase ratio exceeds 0.3, stated exactly as
`10 * upperCount > 3 * length`. -/
def caps_indicator (message : String) : Nat :=
  if message.length ≠ 0 ∧ 3 * message.length < 10 * upperCount message
  then 1 else 0

/-- Exclamation indicator of `detect_emotional_escalation`: at least two
exclamation marks. -/
def exclamation_indicator (message : String) : Nat :=
  if 2 ≤ countChar message (Char.ofNat 33) then 1 else 0

/-- Detector `detect_emotional_escalation` from `trigger_system.py`:
sums the per-keyword increments, the caps indicator and the exclamation
indicator, and fires when the total reaches 2. -/
def detect_emotional_escalation (message : String) : Bool :=
  2 ≤ escalation_keyword_count message + caps_indicator message
      + exclamation_indicator message

/-- Detector `detect_self_harm_language` from `trigger_system.py`: some
crisis keyword occurs in the lowercased message. -/
def detect_self_harm_language (message : String) : Bool :=
  SEMANTIC_SELF_HARM_KEYWORDS.any
    (fun k => containsStr (toLowerStr message) (toLowerStr k))

/-- Auxiliary loop of `count_consecutive_messages`: walk the reversed
history, counting while the speaker name occurs in the entry. -/
def count_consecutive_aux (speaker : String) : List String → Nat
  | [] => 0
  | e :: es =>
      if containsStr e speaker then 1 + count_consecutive_aux speaker es
      else 0

/-- Detector `count_consecutive_messages` from `trigger_system.py`. -/
def count_consecutive_messages (hist : List String) (speaker : String) : Nat :=
  count_consecutive_aux speaker hist.reverse

/-- Detector `count_words` from `trigger_system.py`:
`len(message.split())`. -/
def count_words (message : String) : Nat :=
  (splitWs message).length

/-- Trigger record produced by `detect_triggers` in `trigger_system.py`:
a dict with keys `type`, `subtype`, `value`, `description` and an
optional `severity`. -/
structure Trigger where
  type : String
  subtype : String
  value : Nat
  description : String
  severity : Option String := none
  deriving DecidableEq

/-- Engine `detect_triggers` from `trigger_system.py` (the module
imported by `main.py`).  The simulated silence duration drawn by
`simulate_silence_duration` is passed explicitly as `silence`, making
the random source injectable; it is only consulted by the temporal
block.  The four blocks run in source order and append to the result
list; inside the semantic block self-harm takes precedence over
escalation via `elif`. -/
def detect_triggers (conversation_history : List String)
    (current_speaker current_message selected_trigger : String)
    (silence : Nat) : List Trigger :=
  (if (["Direct Intervention Request", "All Triggers"].contains selected_trigger)
      ∧ detect_help_request current_message then
    [{ type := "Direct Intervention Request", subtype := "Help Request",
       value := 1,
       description := current_speaker ++ " directly requested intervention" }]
   else []) ++
  (if (["Time-based Analysis", "All Triggers"].contains selected_trigger)
      ∧ TIME_SILENCE_THRESHOLD < silence then
    [{ type := "Time-based Analysis", subtype := "Extended Silence",
       value := silence,
       description := "Simulated " ++ toString silence ++ "s silence from "
         ++ current_speaker }]
   else []) ++
  (if ["Semantic Analysis", "All Triggers"].contains selected_trigger then
    (if detect_self_harm_language current_message then
      [{ type := "Semantic Analysis", subtype := "Self-Harm Language",
         value := 1, description := "Crisis indicator detected",
         severity := some "CRITICAL" }]
     else if detect_emotional_escalation current_message then
      [{ type := "Semantic Analysis", subtype := "Emotional Escalation",
         value := 1,
         description := "High emotional intensity detected (keywords + caps + punctuation)" }]
     else [])
   else []) ++
  (if ["Quantitative Analysis", "All Triggers"].contains selected_trigger then
    (if QUANTITATIVE_CONSECUTIVE_THRESHOLD
        ≤ count_consecutive_messages conversation_history current_speaker then
      [{ type := "Quantitative Analysis", subtype := "Message Dominance",
         value := count_consecutive_messages conversation_history current_speaker,
         description := current_speaker ++ " sent "
           ++ toString (count_consecutive_messages conversation_history current_speaker)
           ++ " consecutive messages" }]
     else []) ++
    (if QUANTITATIVE_WORD_THRESHOLD < count_words current_message then
      [{ type := "Quantitative Analysis", subtype := "Information Overload",
         value := count_words current_message,
         description := "Message exceeds " ++ toString QUANTITATIVE_WORD_THRESHOLD
           ++ " words (" ++ toString (count_words current_message) ++ " total)" }]
     else [])
   else [])

/-- Intervention score record from `intervention_system.py`: four 0-100
dimension scores, their average, a recommendation and a rationale; the
numeric fields are rationals because the Python values are floats. -/
structure ScoreRecord where
  flow_disruption : ℚ
  therapeutic_need : ℚ
  timing : ℚ
  impact : ℚ
  average : ℚ
  recommendation : String
  reasoning : String
  deriving DecidableEq

/-- Neutral default score returned by `calculate_intervention_score` on
any parse failure or exception: all four dimensions 50, average 50,
recommendation CONTINUE. -/
def neutral_default_score (reason : String) : ScoreRecord :=
  { flow_disruption := 50, therapeutic_need := 50, timing := 50,
    impact := 50, average := 50, recommendation := "CONTINUE",
    reasoning := reason }

/-- Policy `calculate_intervention_score` from `intervention_system.py`.
The OpenAI call is modelled by `call` (its outcome), direct JSON parsing
by `loads`, and the regex fallback extraction of a JSON fragment by
`extract`.  A failed call, a direct-parse failure with no extractable
fragment, or a failing parse of the extracted fragment (whose exception
is caught by the outer handler) all yield the neutral default; a
successful parse is returned as is. -/
def calculate_intervention_score (call : Except String String)
    (loads : String → Except String ScoreRecord)
    (extract : String → Option String) : ScoreRecord :=
  match call with
  | .error e => neutral_default_score ("Error: " ++ e)
  | .ok text =>
      match loads text with
      | .ok d => d
      | .error _ =>
          match extract text with
          | some frag =>
              match loads frag with
              | .ok d => d
              | .error e2 => neutral_default_score ("Error: " ++ e2)
          | none => neutral_default_score "Unable to parse scoring response"

/-- Decision `should_intervene` from `intervention_system.py`: the
average meets the configured threshold. -/
def should_intervene (intervention_score : ScoreRecord) : Bool :=
  INTERVENTION_THRESHOLD ≤ intervention_score.average

/-- Facilitation template of `generate_intervention` for the
direct-request branch. -/
def template_direct_request : String :=
  "Acknowledge their request for help. Provide structured guidance. \nFacilitate dialogue between partners. Validate their vulnerability in asking for help."

/-- Facilitation template of `generate_intervention` for the
emotional-escalation branch. -/
def template_deescalation : String :=
  "De-escalate emotional intensity. Validate emotions. \nSlow down the pace. Help them regain perspective without dismissing feelings."

/-- Facilitation template of `generate_intervention` for the
extended-silence branch. -/
def template_silence : String :=
  "Gently check in with the silent party. Offer space or invite them to share.\nMake sure they feel safe and heard. Don\x27t force, but create safety for expression."

/-- Facilitation template of `generate_intervention` for the
message-dominance branch. -/
def template_dominance : String :=
  "Acknowledge the speaking partner\x27s passion. Invite the other partner to respond.\nCreate balanced dialogue opportunity. Ensure both voices matter equally."

/-- Facilitation template of `generate_intervention` for the
information-overload branch. -/
def template_overload : String :=
  "Help simplify the complex message. Break it into digestible pieces.\nInvite the other partner to respond to key points one at a time."

/-- Generic fallback template of `generate_intervention`. -/
def template_generic : String :=
  "Provide appropriate therapeutic guidance based on the situation."

/-- Template dispatch of `generate_intervention` in
`intervention_system.py`: the `if`/`elif` chain compares the first
trigger's `type` field against the listed strings. -/
def select_template (trigger_type : String) : String :=
  if trigger_type = "Direct Intervention Request" then template_direct_request
  else if trigger_type = "Emotional Escalation" then template_deescalation
  else if trigger_type = "Extended Silence" then template_silence
  else if trigger_type = "Message Dominance" then template_dominance
  else if trigger_type = "Information Overload" then template_overload
  else template_generic

/-- Policy `generate_intervention` from `intervention_system.py`: with
no triggers it returns no text; otherwise it builds the prompt from the
template selected on the first trigger's `type` and delegates to the
external collaborator, whose outcome is modelled by `call` (applied to
the selected template); an exception yields no text. -/
def generate_intervention (triggers_detected : List Trigger)
    (call : String → Except String String) : Option String :=
  match triggers_detected with
  | [] => none
  | primary :: _ =>
      match call (select_template primary.type) with
      | .ok text => some text
      | .error _ => none

/-- Generator `generate_agent_turn` from `conversation_engine.py`.  The
OpenAI call is modelled by `attempts`, giving the outcome of the n-th
attempt; the source performs exactly one attempt (`attempts 0`) and on
exception returns a bracketed message embedding the error text. -/
def generate_agent_turn (attempts : Nat → Except String String) : String :=
  match attempts 0 with
  | .ok dialogue => dialogue
  | .error e => "[Unable to generate response: " ++ e ++ "]"

/-- Recent-participation counters of `intelligent_speaker_selection`,
one per role scanned for. -/
structure SpeakerCounts where
  therapist : Nat
  patientA : Nat
  patientB : Nat
  facilitator : Nat
  deriving DecidableEq

/-- Per-entry update of the participation counters, mirroring the
`if`/`elif` substring chain over a history entry in
`intelligent_speaker_selection`. -/
def bump_counts (c : SpeakerCounts) (entry : String) : SpeakerCounts :=
  if containsStr entry "Therapist:" then { c with therapist := c.therapist + 1 }
  else if containsStr entry "Patient A" then { c with patientA := c.patientA + 1 }
  else if containsStr entry "Patient B" then { c with patientB := c.patientB + 1 }
  else if containsStr entry "AI_Facilitator:" then
    { c with facilitator := c.facilitator + 1 }
  else c

/-- Scheduler `intelligent_speaker_selection` from
`conversation_engine.py`.  The `random.choice` fallback is modelled by
the injected `rnd` applied to the remaining candidates.  After an
intervention the least-spoken patient is returned when a patient
candidate remains, otherwise control falls through to the normal logic,
exactly as in the source. -/
def intelligent_speaker_selection (conversation_history : List String)
    (current_speaker : String) (intervention_occurred : Bool)
    (rnd : List String → String) : String :=
  let recent_history :=
    if 6 ≤ conversation_history.length then
      conversation_history.drop (conversation_history.length - 6)
    else conversation_history
  let speaker_counts := recent_history.foldl bump_counts ⟨0, 0, 0, 0⟩
  let possible_speakers :=
    (["Therapist", "Patient A", "Patient B"] : List String).filter
      (fun s => s ≠ current_speaker)
  let patients := possible_speakers.filter (fun s => containsStr s "Patient")
  if intervention_occurred ∧ ¬ patients.isEmpty then
    if speaker_counts.patientA ≤ speaker_counts.patientB then "Patient A"
    else "Patient B"
  else if speaker_counts.therapist < 2 ∧ 4 < recent_history.length
      ∧ possible_speakers.contains "Therapist" then "Therapist"
  else if ¬ patients.isEmpty then
    if speaker_counts.patientA ≤ speaker_counts.patientB then
      (if patients.contains "Patient A" then "Patient A" else "Patient B")
    else
      (if patients.contains "Patient B" then "Patient B" else "Patient A")
  else rnd possible_speakers

/-- Entry of the `session_transcript` list built by `run_session_loop`
in `main.py`; facilitator entries additionally carry the triggers and
score they were produced for. -/
structure TranscriptEntry where
  turn : Nat
  speaker : String
  dialogue : String
  intervention_for_triggers : Option (List Trigger) := none
  intervention_score : Option ScoreRecord := none
  deriving DecidableEq

/-- Entry of the `intervention_scores` log appended on every scored
cycle in `run_session_loop`. -/
structure ScoreLogEntry where
  turn : Nat
  triggers : List Trigger
  score : ScoreRecord
  deriving DecidableEq

/-- Entry of the `trigger_log` appended when an intervention is
actually issued in `run_session_loop`. -/
structure TriggerLogEntry where
  turn : Nat
  triggers : List Trigger
  intervention : String
  score : ScoreRecord
  deriving DecidableEq

/-- Mutable session state of `run_session_loop`: the fields of the
output JSON built by `initialize_session_state` in `session_setup.py`
that the loop mutates, together with the growing conversation history.
The static configuration fields (topic header, participant details,
structure, first-speaker choice, model names) are constants never
touched by the loop and are not carried here. -/
structure SessionState where
  session_transcript : List TranscriptEntry
  trigger_log : List TriggerLogEntry
  intervention_scores : List ScoreLogEntry
  intervention_count : Nat
  scored_interventions_rejected : Nat
  conversation_history : List String
  deriving DecidableEq

/-- State produced by `initialize_session_state` in `session_setup.py`:
empty logs and zero counters. -/
def initialize_session_state : SessionState :=
  { session_transcript := [], trigger_log := [], intervention_scores := [],
    intervention_count := 0, scored_interventions_rejected := 0,
    conversation_history := [] }

/-- Steps 2-4 of one iteration of `run_session_loop` in `main.py`
(trigger detection already performed, its result in `triggers_detected`;
the scoring call already resolved into `score`; the intervention-text
generation outcome in `generated`).  Returns the updated state, the
`intervention_occurred` flag, and the current turn number (incremented
only when a facilitator turn was inserted).  With triggers present the
score is always logged; above threshold, a generated text appends the
facilitator turn and bumps `intervention_count`, while a missing text
changes nothing further; below threshold the rejection counter is
bumped. -/
def intervention_block (st : SessionState) (turn : Nat)
    (triggers_detected : List Trigger) (score : ScoreRecord)
    (generated : Option String) : SessionState × Bool × Nat :=
  if triggers_detected.isEmpty then (st, false, turn)
  else
    let st1 := { st with intervention_scores :=
      st.intervention_scores ++ [{ turn := turn, triggers := triggers_detected,
                                   score := score }] }
    if should_intervene score then
      match generated with
      | some text =>
          let st2 := { st1 with
            session_transcript := st1.session_transcript ++
              [{ turn := turn + 1, speaker := "AI_Facilitator",
                 dialogue := text,
                 intervention_for_triggers := some triggers_detected,
                 intervention_score := some score }],
            conversation_history := st1.conversation_history ++
              ["AI Facilitator: " ++ text],
            trigger_log := st1.trigger_log ++
              [{ turn := turn + 1 - 1, triggers := triggers_detected,
                 intervention := text, score := score }],
            intervention_count := st1.intervention_count + 1 }
          (st2, true, turn + 1)
      | none => (st1, false, turn)
    else
      ({ st1 with scored_interventions_rejected :=
          st1.scored_interventions_rejected + 1 }, false, turn)

/-- List `PANAS_POSITIVE` from `config.py`. -/
def PANAS_POSITIVE : List String :=
  ["Interested", "Excited", "Strong", "Enthusiastic", "Proud",
   "Alert", "Inspired", "Determined", "Attentive", "Active"]

/-- List `PANAS_NEGATIVE` from `config.py`. -/
def PANAS_NEGATIVE : List String :=
  ["Distressed", "Upset", "Guilty", "Scared", "Hostile",
   "Irritable", "Ashamed", "Nervous", "Jittery", "Afraid"]

/-- Ordered key list of the `emotion_map` dict in
`normalize_emotion_name` (`panas_analyzer.py`); it coincides with the
lowercased `PANAS_POSITIVE + PANAS_NEGATIVE` vocabulary, in insertion
order. -/
def emotion_map_keys : List String :=
  ["interested", "excited", "strong", "enthusiastic", "proud",
   "alert", "inspired", "determined", "attentive", "active",
   "distressed", "upset", "guilty", "scared", "hostile",
   "irritable", "ashamed", "nervous", "jittery", "afraid"]

/-- Characters stripped from the front of an emotion name by the prefix
regex `[\*\-\d\.\s#]+` in `normalize_emotion_name`. -/
def is_noise_prefix_char (c : Char) : Bool :=
  c = Char.ofNat 42 ∨ c = Char.ofNat 45 ∨ c.isDigit ∨ c = Char.ofNat 46
    ∨ c.isWhitespace ∨ c = Char.ofNat 35

/-- Characters stripped from the end of an emotion name by the trailing
regex `[\*\s]+$` in `normalize_emotion_name`. -/
def is_noise_trailing_char (c : Char) : Bool :=
  c = Char.ofNat 42 ∨ c.isWhitespace

/-- Normalizer `normalize_emotion_name` from `panas_analyzer.py`: strip
and lowercase, remove noise prefix characters, trailing stars and
spaces, and colons; then return the cleaned form if it is a vocabulary
key, else the first vocabulary key contained in it, else the cleaned
form itself. -/
def normalize_emotion_name (name : String) : String :=
  let cleaned0 := toLowerStr (trimStr name)
  let cleaned1 := String.mk (cleaned0.data.dropWhile is_noise_prefix_char)
  let cleaned2 := String.mk
    ((cleaned1.data.reverse.dropWhile is_noise_trailing_char).reverse)
  let cleaned := String.mk (cleaned2.data.filter (fun c => c ≠ Char.ofNat 58))
  if cleaned ∈ emotion_map_keys then cleaned
  else
    match emotion_map_keys.find? (fun k => containsStr cleaned k) with
    | some k => k
    | none => cleaned

/-- Title-case a single lowercase word, mirroring Python `str.title()`
on the one-word vocabulary entries it is applied to: uppercase the
first character, lowercase the rest. -/
def titleize (s : String) : String :=
  match s.data with
  | [] => ""
  | c :: cs => String.mk (c.toUpper :: cs.map Char.toLower)

/-- Decimal value of an all-digit token, mirroring Python `int(s)`. -/
def digitsToNat (s : String) : Nat :=
  s.data.foldl (fun n c => 10 * n + (c.toNat - 48)) 0

/-- The list comprehension of `parse_panas_output` extracting candidate
scores from the score field: whitespace tokens that are all digits with
value between 1 and 5. -/
def score_matches (score_str : String) : List Nat :=
  (splitWs score_str).filterMap (fun t =>
    if t.data.all Char.isDigit ∧ 1 ≤ digitsToNat t ∧ digitsToNat t ≤ 5 then
      some (digitsToNat t)
    else none)

/-- Score extraction of `parse_panas_output`: the first candidate, or
the default 3 when none is present. -/
def extract_score (score_str : String) : Nat :=
  (score_matches score_str).headD 3

/-- Narrative markers whose presence (lowercased) skips a line in
`parse_panas_output`. -/
def skip_markers : List String :=
  ["here", "the person", "based on", "note:", "example", "provide"]

/-- Parsed emotion entry of `parse_panas_output`: feeling name,
explanation and 1-5 score.  The baseline collections read from the
personas file share this shape. -/
structure Emotion where
  feeling : String
  explanation : String
  score : Int
  deriving DecidableEq

/-- Comma fields of a line, each stripped: the Python
`[p.strip() for p in line.split(",")]` of `parse_panas_output`. -/
def line_fields (line : String) : List String :=
  (splitOnChar (Char.ofNat 44) line).map trimStr

/-- Score field of a parsed line: the third comma field when present,
otherwise the last one, mirroring
`parts[2] if len(parts) > 2 else parts[-1]`. -/
def score_field (parts : List String) : String :=
  if 2 < parts.length then (parts.drop 2).headD "" else parts.getLastD ""

/-- Entry built from an accepted normalized emotion name and its line
fields: title-cased feeling, second field as explanation, extracted
score. -/
def build_entry (emotion_normalized : String) (parts : List String) :
    Emotion :=
  { feeling := titleize emotion_normalized,
    explanation := (parts.drop 1).headD "",
    score := (extract_score (score_field parts) : Int) }

/-- Per-line step of `parse_panas_output`: strip the line, skip short
or narrative lines, split on commas, normalize the emotion name, and
accept it when it is a fresh vocabulary member, returning the
normalized key together with the built entry. -/
def parse_line (processed : List String) (line0 : String) :
    Option (String × Emotion) :=
  let line := trimStr line0
  if line.length < 5 then none
  else if skip_markers.any (fun w => containsStr (toLowerStr line) w) then none
  else if containsStr line "," then
    let parts := line_fields line
    if 2 ≤ parts.length then
      let emotion_normalized := normalize_emotion_name (parts.headD "")
      if emotion_normalized ∈ emotion_map_keys
          ∧ emotion_normalized ∉ processed then
        some (emotion_normalized, build_entry emotion_normalized parts)
      else none
    else none
  else none

/-- Line-list recursion of `parse_panas_output`, threading the
`processed_emotions` set (first occurrence wins). -/
def parse_panas_aux (processed : List String) : List String → List Emotion
  | [] => []
  | l :: ls =>
      match parse_line processed l with
      | some (key, e) => e :: parse_panas_aux (key :: processed) ls
      | none => parse_panas_aux processed ls

/-- Parser `parse_panas_output` from `panas_analyzer.py`: strip the
text, split into lines, and accumulate accepted entries. -/
def parse_panas_output (panas_text : String) : List Emotion :=
  parse_panas_aux [] (splitOnChar (Char.ofNat 10) (trimStr panas_text))

/-- Emotion delta record of `compute_panas_delta`. -/
structure PanasDelta where
  feeling : String
  before_score : Int
  after_score : Int
  difference : Int
  deriving DecidableEq

/-- Dict lookup over the post-session collection built by
`compute_panas_delta`: the dict is keyed by normalized name with later
entries overwriting earlier ones, so lookup finds the last matching
entry. -/
def after_lookup (after_emotions : List Emotion) (key : String) :
    Option Emotion :=
  after_emotions.reverse.find?
    (fun e => normalize_emotion_name e.feeling = key)

/-- Reconciler `compute_panas_delta` from `panas_analyzer.py` (the
`persona_name` argument only feeds logging and is dropped): with either
collection empty the result is empty; otherwise each baseline entry
whose normalized name has a match in the post-session dict yields a
delta `after - before`, and unmatched baseline entries are skipped. -/
def compute_panas_delta (before_emotions after_emotions : List Emotion) :
    List PanasDelta :=
  if before_emotions.isEmpty ∨ after_emotions.isEmpty then []
  else
    before_emotions.filterMap (fun b =>
      match after_lookup after_emotions (normalize_emotion_name b.feeling) with
      | some a => some { feeling := b.feeling, before_score := b.score,
                         after_score := a.score,
                         difference := a.score - b.score }
      | none => none)

/-- Modelled from the claim wording (not from the source), for the
refinement comparison of escalation detection: one indicator for some
escalation keyword being present, one for the caps ratio exceeding 0.3,
one for at least two exclamation marks. -/
def spec_escalation_indicator_count (message : String) : Nat :=
  (if SEMANTIC_ESCALATION_KEYWORDS.any
      (fun k => containsStr (toLowerStr message) k) then 1 else 0)
  + caps_indicator message + exclamation_indicator message

/-- The neutral-default shape of an intervention score: all four
dimension scores 50, average 50, recommendation CONTINUE. -/
def neutralish (r : ScoreRecord) : Prop :=
  r.flow_disruption = 50 ∧ r.therapeutic_need = 50 ∧ r.timing = 50
    ∧ r.impact = 50 ∧ r.average = 50 ∧ r.recommendation = "CONTINUE"

/-- Message of 101 whitespace-separated words, used to exercise the
quantitative word-count trigger. -/
def long_message : String :=
  String.intercalate " " (List.replicate 101 "word")

/-- C1 counterexample: on the message "hate is stupid" the code fires
(two different keywords each increment the counter) although only one
of the three claim indicators holds, refuting the claimed equivalence
between escalation detection and at-least-2-of-3 indicators. -/
theorem C1_counterexample :
    ¬ (detect_emotional_escalation "hate is stupid" = true
        ↔ 2 ≤ spec_escalation_indicator_count "hate is stupid") := by
  decide

/-- C1 (amended): escalation detection counts one indicator per
escalation keyword contained in the message (so two different keywords
alone fire it), plus one for uppercase ratio over 0.3, plus one for at
least two exclamation marks, and returns true iff the total reaches 2;
it returns false whenever the total is 0 or 1; in particular the
two-keyword message "hate is stupid" fires. -/
theorem C1_amended :
    (∀ message, detect_emotional_escalation message = true
        ↔ 2 ≤ escalation_keyword_count message + caps_indicator message
            + exclamation_indicator message)
    ∧ (∀ message,
        escalation_keyword_count message + caps_indicator message
            + exclamation_indicator message ≤ 1 →
          detect_emotional_escalation message = false)
    ∧ detect_emotional_escalation "hate is stupid" = true := by
  refine ⟨fun message => ?_, fun message h => ?_, by decide⟩
  · simp [detect_emotional_escalation]
  · simp [detect_emotional_escalation]
    omega

/-- C1 amended witness: the empty message has indicator total 0 and
detection returns false on it. -/
theorem C1_amended_witness : detect_emotional_escalation "" = false :=
  C1_amended.2.1 "" (by decide)

/-- C3: the intervention decision holds exactly when the record average
reaches the configured threshold, the threshold is 70, an average of 70
decides true, and an average of 69.999 decides false. -/
theorem C3_should_intervene_iff :
    (∀ s : ScoreRecord,
        should_intervene s = true ↔ INTERVENTION_THRESHOLD ≤ s.average)
    ∧ INTERVENTION_THRESHOLD = 70
    ∧ should_intervene
        { flow_disruption := 70, therapeutic_need := 70, timing := 70,
          impact := 70, average := 70, recommendation := "",
          reasoning := "" } = true
    ∧ should_intervene
        { flow_disruption := 70, therapeutic_need := 70, timing := 70,
          impact := 70, average := 69999 / 1000, recommendation := "",
          reasoning := "" } = false := by
  refine ⟨fun s => ?_, rfl, ?_, ?_⟩
  · simp [should_intervene]
  · simp [should_intervene, INTERVENTION_THRESHOLD]
  · simp [should_intervene, INTERVENTION_THRESHOLD]
    norm_num

/-- C4: whenever the scoring call raises, or its response can be parsed
neither directly nor from an extracted fragment, the scoring policy
returns the neutral default record (all four dimensions 50, average 50,
recommendation CONTINUE); the embedding is a total function, so no
error propagates out of the scoring call. -/
theorem C4_neutral_default :
    ∀ (loads : String → Except String ScoreRecord)
      (extract : String → Option String),
      (∀ e, neutralish
          (calculate_intervention_score (Except.error e) loads extract))
      ∧ (∀ t e1, loads t = Except.error e1 → extract t = none →
          neutralish
            (calculate_intervention_score (Except.ok t) loads extract))
      ∧ (∀ t e1 frag e2, loads t = Except.error e1 →
          extract t = some frag → loads frag = Except.error e2 →
          neutralish
            (calculate_intervention_score (Except.ok t) loads extract)) := by
  intro loads extract
  refine ⟨fun e => ?_, fun t e1 h1 h2 => ?_, fun t e1 frag e2 h1 h2 h3 => ?_⟩
  · simp [calculate_intervention_score, neutralish, neutral_default_score]
  · simp [calculate_intervention_score, h1, h2, neutralish,
      neutral_default_score]
  · simp [calculate_intervention_score, h1, h2, h3, neutralish,
      neutral_default_score]

/-- C4 witness: with a collaborator response that parses in neither way,
the returned record is the neutral default. -/
theorem C4_neutral_default_witness :
    neutralish
      (calculate_intervention_score (Except.ok "no json here")
        (fun _ => Except.error "bad json") (fun _ => none)) :=
  (C4_neutral_default (fun _ => Except.error "bad json") (fun _ => none)).2.1
    "no json here" "bad json" rfl rfl

/-- C6 counterexample: the dialogue generator performs a single attempt
only (a first-attempt failure is returned even when a second attempt
would succeed), and the failure string embeds the error text, so two
different errors produce two different fallback strings, refuting both
the 3-retry behaviour and the fixed error-independent apology. -/
theorem C6_counterexample :
    generate_agent_turn
        (fun n => if n = 0 then Except.error "timeout"
                  else Except.ok "Recovered text")
      = "[Unable to generate response: timeout]"
    ∧ generate_agent_turn (fun _ => Except.error "rate limit")
      ≠ generate_agent_turn (fun _ => Except.error "timeout") := by
  constructor
  · rfl
  · decide

/-- C6 (amended): dialogue-turn generation makes exactly one attempt at
the external collaborator: a successful first attempt is returned as
the dialogue, and a failing first attempt yields a bracketed fallback
string embedding the error message (so the fallback varies with the
error), rather than an abort — the generator is a total function. -/
theorem C6_amended :
    ∀ attempts : Nat → Except String String,
      (∀ t, attempts 0 = Except.ok t → generate_agent_turn attempts = t)
      ∧ (∀ e, attempts 0 = Except.error e →
          generate_agent_turn attempts
            = "[Unable to generate response: " ++ e ++ "]") := by
  intro attempts
  refine ⟨fun t h => ?_, fun e h => ?_⟩
  · simp [generate_agent_turn, h]
  · simp [generate_agent_turn, h]

/-- C6 amended witness: a concrete failing first attempt produces the
bracketed fallback embedding that error. -/
theorem C6_amended_witness :
    generate_agent_turn (fun _ => Except.error "boom")
      = "[Unable to generate response: " ++ "boom" ++ "]" :=
  (C6_amended (fun _ => Except.error "boom")).2 "boom" rfl

/-- C2: in semantic single-modality mode, a message carrying both
self-harm language and emotional escalation produces exactly one
trigger — the critical self-harm trigger — with the escalation trigger
suppressed by the `elif` precedence. -/
theorem C2_semantic_precedence :
    ∀ (hist : List String) (spk m : String) (silence : Nat),
      detect_self_harm_language m = true →
      detect_emotional_escalation m = true →
      detect_triggers hist spk m "Semantic Analysis" silence =
        [{ type := "Semantic Analysis", subtype := "Self-Harm Language",
           value := 1, description := "Crisis indicator detected",
           severity := some "CRITICAL" }] := by
  intro hist spk m silence hsh _hesc
  simp [detect_triggers, hsh]

/-- C2 witness: the scenario message contains both self-harm language
and escalation indicators, and semantic detection yields only the
critical self-harm trigger. -/
theorem C2_semantic_precedence_witness :
    detect_self_harm_language "I want to end it all and I hate you!!" = true
    ∧ detect_emotional_escalation "I want to end it all and I hate you!!" = true
    ∧ detect_triggers [] "Patient A" "I want to end it all and I hate you!!"
        "Semantic Analysis" 0 =
        [{ type := "Semantic Analysis", subtype := "Self-Harm Language",
           value := 1, description := "Crisis indicator detected",
           severity := some "CRITICAL" }] :=
  ⟨by decide, by decide,
    C2_semantic_precedence [] "Patient A"
      "I want to end it all and I hate you!!" 0 (by decide) (by decide)⟩

/-- C5 counterexample: with a score above threshold and no generated
intervention text, the loop body leaves every counter unchanged — the
intervention count and the below-threshold rejection counter both stay
at zero and no facilitator turn is appended — so the failed attempt is
recorded in no counter at all, refuting the claimed distinct failure
counter. -/
theorem C5_counterexample :
    (let trig : Trigger :=
      { type := "Semantic Analysis", subtype := "Emotional Escalation",
        value := 1,
        description := "High emotional intensity detected (keywords + caps + punctuation)" };
     let score : ScoreRecord :=
      { flow_disruption := 85, therapeutic_need := 85, timing := 85,
        impact := 85, average := 85, recommendation := "INTERVENE",
        reasoning := "r" };
     let r := intervention_block initialize_session_state 5 [trig] score none;
     should_intervene score = true
       ∧ r.1.intervention_count = 0
       ∧ r.1.scored_interventions_rejected = 0
       ∧ r.1.session_transcript = []
       ∧ r.2.1 = false) := by
  decide

/-- C5 (amended): when the decision favoured intervening but generation
returned no text, the loop treats it as no intervention — no facilitator
turn is appended, the intervention count is not incremented, and the
flag stays false — and the attempt is not recorded in any counter: the
rejection counter is also unchanged, only the score-log entry of the
cycle remains. -/
theorem C5_amended :
    ∀ (st : SessionState) (turn : Nat) (triggers : List Trigger)
      (score : ScoreRecord),
      triggers ≠ [] → should_intervene score = true →
      intervention_block st turn triggers score none =
        ({ st with intervention_scores := st.intervention_scores ++
            [{ turn := turn, triggers := triggers, score := score }] },
         false, turn) := by
  intro st turn triggers score hne hsi
  cases triggers with
  | nil => exact absurd rfl hne
  | cons t ts => simp [intervention_block, hsi]

/-- C5 amended witness: a concrete above-threshold cycle with no
generated text only logs the score entry. -/
theorem C5_amended_witness :
    intervention_block initialize_session_state 3
        [{ type := "Direct Intervention Request", subtype := "Help Request",
           value := 1, description := "Patient A directly requested intervention" }]
        { flow_disruption := 90, therapeutic_need := 90, timing := 90,
          impact := 90, average := 90, recommendation := "INTERVENE",
          reasoning := "r" } none =
      ({ initialize_session_state with intervention_scores :=
          [{ turn := 3,
             triggers :=
               [{ type := "Direct Intervention Request",
                  subtype := "Help Request", value := 1,
                  description := "Patient A directly requested intervention" }],
             score :=
               { flow_disruption := 90, therapeutic_need := 90, timing := 90,
                 impact := 90, average := 90, recommendation := "INTERVENE",
                 reasoning := "r" } }] }, false, 3) :=
  C5_amended initialize_session_state 3 _ _ (by decide) (by decide)

/-- C7: on a quantitative information-overload trigger (first trigger of
a 101-word message in quantitative mode) the template dispatch selects
the generic fallback template, not the information-overload template,
and on a semantic emotional-escalation trigger it also selects the
generic fallback, because the `if`/`elif` chain compares the trigger
`type` field against subtype names that no produced trigger ever has as
its type. -/
theorem C7_template_dispatch_bug :
    detect_triggers [] "Patient A" long_message "Quantitative Analysis" 0
      = [{ type := "Quantitative Analysis", subtype := "Information Overload",
           value := 101,
           description := "Message exceeds 100 words (101 total)" }]
    ∧ select_template "Quantitative Analysis" = template_generic
    ∧ select_template "Semantic Analysis" = template_generic
    ∧ template_generic ≠ template_overload
    ∧ template_generic ≠ template_deescalation := by
  refine ⟨by decide, by decide, by decide, by decide, by decide⟩

set_option maxHeartbeats 2000000 in
/-- C9: for any history, a current speaker among the three dialogue
roles, and any random fallback, balance-seeking selection without a
preceding intervention never returns the current speaker, and selection
immediately after a facilitator intervention always returns one of the
two participants — never the therapist and never the facilitator. -/
theorem C9_scheduler_invariants :
    ∀ (hist : List String) (cur : String) (rnd : List String → String),
      cur ∈ (["Therapist", "Patient A", "Patient B"] : List String) →
      intelligent_speaker_selection hist cur false rnd ≠ cur
      ∧ (intelligent_speaker_selection hist cur true rnd = "Patient A"
         ∨ intelligent_speaker_selection hist cur true rnd = "Patient B") := by
  intro hist cur rnd hcur
  have f1 : (["Therapist", "Patient A", "Patient B"] : List String).filter
      (fun s => s ≠ "Therapist") = ["Patient A", "Patient B"] := by decide
  have f2 : (["Therapist", "Patient A", "Patient B"] : List String).filter
      (fun s => s ≠ "Patient A") = ["Therapist", "Patient B"] := by decide
  have f3 : (["Therapist", "Patient A", "Patient B"] : List String).filter
      (fun s => s ≠ "Patient B") = ["Therapist", "Patient A"] := by decide
  have g1 : (["Patient A", "Patient B"] : List String).filter
      (fun s => containsStr s "Patient") = ["Patient A", "Patient B"] := by decide
  have g2 : (["Therapist", "Patient B"] : List String).filter
      (fun s => containsStr s "Patient") = ["Patient B"] := by decide
  have g3 : (["Therapist", "Patient A"] : List String).filter
      (fun s => containsStr s "Patient") = ["Patient A"] := by decide
  have e1 : (["Patient A", "Patient B"] : List String).isEmpty = false := by decide
  have e2 : (["Patient B"] : List String).isEmpty = false := by decide
  have e3 : (["Patient A"] : List String).isEmpty = false := by decide
  have c1 : (["Patient A", "Patient B"] : List String).contains "Therapist"
      = false := by decide
  have c2 : (["Therapist", "Patient B"] : List String).contains "Therapist"
      = true := by decide
  have c3 : (["Therapist", "Patient A"] : List String).contains "Therapist"
      = true := by decide
  have c4 : (["Patient B"] : List String).contains "Patient A" = false := by decide
  have c5 : (["Patient B"] : List String).contains "Patient B" = true := by decide
  have c6 : (["Patient A"] : List String).contains "Patient B" = false := by decide
  have c7 : (["Patient A"] : List String).contains "Patient A" = true := by decide
  fin_cases hcur <;>
    refine ⟨?_, ?_⟩ <;>
      · simp only [intelligent_speaker_selection, f1, f2, f3, g1, g2, g3,
          e1, e2, e3, c1, c2, c3, c4, c5, c6, c7]
        split_ifs <;> first | decide | simp_all

/-- Lookup success in the post-session dict is exactly membership of
the key among the normalized post-session names. -/
lemma after_lookup_isSome_iff (a : List Emotion) (key : String) :
    (after_lookup a key).isSome = true
      ↔ ∃ x ∈ a, normalize_emotion_name x.feeling = key := by
  simp [after_lookup, List.find?_isSome, List.mem_reverse]

/-- A successful lookup returns a post-session entry carrying the
requested normalized name. -/
lemma after_lookup_spec {a : List Emotion} {key : String} {x : Emotion}
    (h : after_lookup a key = some x) :
    x ∈ a ∧ normalize_emotion_name x.feeling = key := by
  refine ⟨List.mem_reverse.mp (List.mem_of_find?_eq_some h), ?_⟩
  have h1 := List.find?_some h
  simpa using h1

/-- With both collections nonempty the delta computation is the
baseline-order filter-map over matched entries. -/
lemma compute_panas_delta_eq {b a : List Emotion} (hb : b ≠ []) (ha : a ≠ []) :
    compute_panas_delta b a = b.filterMap (fun e =>
      match after_lookup a (normalize_emotion_name e.feeling) with
      | some x => some { feeling := e.feeling, before_score := e.score,
                         after_score := x.score,
                         difference := x.score - e.score }
      | none => none) := by
  unfold compute_panas_delta
  rw [if_neg]
  simp [List.isEmpty_iff, hb, ha]

/-- A filter-map whose function succeeds exactly on a predicate has the
length of the corresponding filter. -/
lemma length_filterMap_eq_length_filter {α β : Type} (f : α → Option β)
    (p : α → Bool) (hfp : ∀ x, (f x).isSome = p x) :
    ∀ l : List α, (l.filterMap f).length = (l.filter p).length := by
  intro l
  induction l with
  | nil => simp
  | cons x xs ih =>
      have hx := hfp x
      cases hfx : f x with
      | none =>
          rw [hfx] at hx
          simp [List.filterMap_cons, hfx, List.filter_cons, ← hx, ih]
      | some y =>
          rw [hfx] at hx
          simp [List.filterMap_cons, hfx, List.filter_cons, ← hx, ih]

/-- C8: delta computation emits entries with difference equal to the
post-session score minus the baseline score; a baseline entry yields a
delta exactly when its normalized name also occurs in the post-session
collection (unmatched baseline names are silently skipped); when the
baseline names are pairwise distinct the delta count never exceeds the
post-session entry count; and the concrete round trip of baseline
Interested 4 against the parsed line "Interested, shows curiosity, 2"
yields the single delta with before 4, after 2, difference -2. -/
theorem C8_delta_reconciliation :
    (∀ (before after : List Emotion) (d : PanasDelta),
        d ∈ compute_panas_delta before after →
        d.difference = d.after_score - d.before_score)
    ∧ (∀ (before after : List Emotion) (e : Emotion),
        e ∈ before → after ≠ [] →
        ((∃ x ∈ after, normalize_emotion_name x.feeling
            = normalize_emotion_name e.feeling)
          ↔ ∃ d ∈ compute_panas_delta before after,
              d.feeling = e.feeling ∧ d.before_score = e.score))
    ∧ (∀ (before after : List Emotion),
        (before.map (fun e => normalize_emotion_name e.feeling)).Nodup →
        (compute_panas_delta before after).length ≤ after.length)
    ∧ compute_panas_delta
        [{ feeling := "Interested", explanation := "", score := 4 }]
        (parse_panas_output "Interested, shows curiosity, 2")
      = [{ feeling := "Interested", before_score := 4, after_score := 2,
           difference := -2 }] := by
  refine ⟨?_, ?_, ?_, by decide⟩
  · intro b a d hd
    by_cases hb : b = []
    · subst hb; simp [compute_panas_delta] at hd
    by_cases ha : a = []
    · subst ha; simp [compute_panas_delta] at hd
    rw [compute_panas_delta_eq hb ha] at hd
    obtain ⟨e, _he, hfe⟩ := List.mem_filterMap.mp hd
    cases hx : after_lookup a (normalize_emotion_name e.feeling) with
    | none => rw [hx] at hfe; simp at hfe
    | some x =>
        rw [hx] at hfe
        cases hfe
        simp
  · intro b a e he ha
    have hb : b ≠ [] := List.ne_nil_of_mem he
    constructor
    · rintro ⟨x, hx, hnx⟩
      have hsome : (after_lookup a
          (normalize_emotion_name e.feeling)).isSome = true :=
        (after_lookup_isSome_iff a _).mpr ⟨x, hx, hnx⟩
      obtain ⟨x0, hx0⟩ := Option.isSome_iff_exists.mp hsome
      refine ⟨{ feeling := e.feeling, before_score := e.score,
                after_score := x0.score, difference := x0.score - e.score },
              ?_, rfl, rfl⟩
      rw [compute_panas_delta_eq hb ha]
      exact List.mem_filterMap.mpr ⟨e, he, by simp [hx0]⟩
    · rintro ⟨d, hd, hdf, _hdb⟩
      rw [compute_panas_delta_eq hb ha] at hd
      obtain ⟨e2, _he2, hfe2⟩ := List.mem_filterMap.mp hd
      cases hx : after_lookup a (normalize_emotion_name e2.feeling) with
      | none => rw [hx] at hfe2; simp at hfe2
      | some x0 =>
          rw [hx] at hfe2
          cases hfe2
          obtain ⟨hx0mem, hx0key⟩ := after_lookup_spec hx
          refine ⟨x0, hx0mem, ?_⟩
          rw [hx0key, ← hdf]
  · intro b a hnd
    by_cases hb : b = []
    · subst hb; simp [compute_panas_delta]
    by_cases ha : a = []
    · subst ha; simp [compute_panas_delta]
    rw [compute_panas_delta_eq hb ha]
    have hfp : ∀ x : Emotion,
        (match after_lookup a (normalize_emotion_name x.feeling) with
          | some y => some ({ feeling := x.feeling, before_score := x.score,
                              after_score := y.score,
                              difference := y.score - x.score } : PanasDelta)
          | none => (none : Option PanasDelta)).isSome
          = (after_lookup a (normalize_emotion_name x.feeling)).isSome := by
      intro x
      cases hx : after_lookup a (normalize_emotion_name x.feeling) with
      | none => simp [hx]
      | some y => simp [hx]
    rw [length_filterMap_eq_length_filter _ _ hfp]
    set p := fun e : Emotion =>
      (after_lookup a (normalize_emotion_name e.feeling)).isSome with hp
    have hnodup : ((b.filter p).map
        (fun e => normalize_emotion_name e.feeling)).Nodup :=
      ((List.filter_sublist b).map _).nodup hnd
    have hsub : ((b.filter p).map
        (fun e => normalize_emotion_name e.feeling))
        ⊆ a.map (fun e => normalize_emotion_name e.feeling) := by
      intro k hk
      obtain ⟨e, hef, rfl⟩ := List.mem_map.mp hk
      have hpe : p e = true := (List.mem_filter.mp hef).2
      rw [hp] at hpe
      obtain ⟨x, hx, hnx⟩ := (after_lookup_isSome_iff a _).mp hpe
      exact List.mem_map.mpr ⟨x, hx, hnx⟩
    have hlen := (hnodup.subperm hsub).length_le
    simpa using hlen

/-- C8 witness: a concrete two-entry distinct baseline against a
one-entry post-session collection yields at most one delta. -/
theorem C8_delta_reconciliation_witness :
    (compute_panas_delta
        [{ feeling := "Interested", explanation := "", score := 4 },
         { feeling := "Upset", explanation := "", score := 3 }]
        [{ feeling := "Interested", explanation := "x", score := 2 }]).length
      ≤ ([{ feeling := "Interested", explanation := "x", score := 2 }] :
          List Emotion).length :=
  C8_delta_reconciliation.2.2.1
    [{ feeling := "Interested", explanation := "", score := 4 },
     { feeling := "Upset", explanation := "", score := 3 }]
    [{ feeling := "Interested", explanation := "x", score := 2 }]
    (by decide)

/-- Every candidate score accepted by the extraction comprehension lies
between 1 and 5. -/
lemma score_matches_mem {s : String} {v : Nat} (h : v ∈ score_matches s) :
    1 ≤ v ∧ v ≤ 5 := by
  unfold score_matches at h
  obtain ⟨t, _ht, hft⟩ := List.mem_filterMap.mp h
  split_ifs at hft with hcond
  cases hft
  exact ⟨hcond.2.1, hcond.2.2⟩

/-- The extracted score always lies between 1 and 5. -/
lemma extract_score_bounds (s : String) :
    1 ≤ extract_score s ∧ extract_score s ≤ 5 := by
  unfold extract_score
  cases h : score_matches s with
  | nil => simp
  | cons v vs =>
      have hv : v ∈ score_matches s := by
        rw [h]; exact List.mem_cons_self v vs
      simpa using score_matches_mem hv

/-- Integer-valued form of the score bounds, as stored in the parsed
entry. -/
lemma extract_score_bounds_int (s : String) :
    1 ≤ (extract_score s : Int) ∧ (extract_score s : Int) ≤ 5 := by
  have h := extract_score_bounds s
  omega

set_option maxHeartbeats 8000000 in
/-- Normalizing the title-cased form of a vocabulary key gives back the
key, checked over the whole 20-term vocabulary. -/
lemma norm_titleize : ∀ k ∈ emotion_map_keys,
    normalize_emotion_name (titleize k) = k := by decide

set_option maxHeartbeats 2000000 in
/-- An accepted line yields a fresh vocabulary key and an entry whose
feeling normalizes back to that key and whose score is within 1-5. -/
lemma parse_line_some {processed : List String} {l k : String} {e : Emotion}
    (h : parse_line processed l = some (k, e)) :
    k ∈ emotion_map_keys ∧ k ∉ processed
      ∧ normalize_emotion_name e.feeling = k
      ∧ 1 ≤ e.score ∧ e.score ≤ 5 := by
  simp only [parse_line] at h
  split_ifs at h with h1 h2 h3 h4 h5
  rw [Option.some.injEq, Prod.mk.injEq] at h
  obtain ⟨hk, he⟩ := h
  subst hk
  subst he
  exact ⟨h5.1, h5.2, norm_titleize _ h5.1,
    (extract_score_bounds_int _).1, (extract_score_bounds_int _).2⟩

/-- Invariant of the parsing recursion: every produced entry carries a
fresh in-vocabulary normalized name with a 1-5 score, and the produced
normalized names are pairwise distinct. -/
lemma parse_aux_invariant :
    ∀ (lines processed : List String),
      (∀ e ∈ parse_panas_aux processed lines,
          (normalize_emotion_name e.feeling ∈ emotion_map_keys
            ∧ 1 ≤ e.score ∧ e.score ≤ 5)
          ∧ normalize_emotion_name e.feeling ∉ processed)
      ∧ ((parse_panas_aux processed lines).map
          (fun e => normalize_emotion_name e.feeling)).Nodup := by
  intro lines
  induction lines with
  | nil => intro processed; simp [parse_panas_aux]
  | cons l ls ih =>
      intro processed
      rw [parse_panas_aux]
      cases h : parse_line processed l with
      | none => exact ih processed
      | some ke =>
          obtain ⟨k, e⟩ := ke
          obtain ⟨hk1, hk2, hk3, hk4, hk5⟩ := parse_line_some h
          have ihp := ih (k :: processed)
          constructor
          · intro x hx
            rcases List.mem_cons.mp hx with rfl | hx2
            · exact ⟨⟨by rw [hk3]; exact hk1, hk4, hk5⟩, by rw [hk3]; exact hk2⟩
            · have hin := ihp.1 x hx2
              exact ⟨hin.1, fun hc => hin.2 (List.mem_cons_of_mem _ hc)⟩
          · rw [List.map_cons]
            refine List.nodup_cons.mpr ⟨?_, ihp.2⟩
            intro hmem
            obtain ⟨x, hx, hxe⟩ := List.mem_map.mp hmem
            have hin := ihp.1 x hx
            apply hin.2
            rw [hxe, hk3]
            exact List.mem_cons_self _ _

/-- C10: every entry produced by PANAS output parsing has a normalized
feeling name in the fixed 20-term vocabulary and an integer score
between 1 and 5; the normalized names of the returned entries are
pairwise distinct so the list has at most 20 entries; the vocabulary is
exactly the lowercased positive-plus-negative PANAS list; and the score
extraction defaults to 3 when no explicit digit 1-5 token appears in
the score field. -/
theorem C10_parse_invariants :
    ∀ text : String,
      (∀ e ∈ parse_panas_output text,
          normalize_emotion_name e.feeling ∈ emotion_map_keys
          ∧ 1 ≤ e.score ∧ e.score ≤ 5)
      ∧ ((parse_panas_output text).map
          (fun e => normalize_emotion_name e.feeling)).Nodup
      ∧ (parse_panas_output text).length ≤ 20
      ∧ emotion_map_keys = (PANAS_POSITIVE ++ PANAS_NEGATIVE).map toLowerStr
      ∧ (∀ s, score_matches s = [] → extract_score s = 3) := by
  intro text
  have hinv := parse_aux_invariant
    (splitOnChar (Char.ofNat 10) (trimStr text)) []
  have hout : parse_panas_output text =
      parse_panas_aux [] (splitOnChar (Char.ofNat 10) (trimStr text)) := rfl
  refine ⟨?_, ?_, ?_, by decide, ?_⟩
  · intro e he
    rw [hout] at he
    exact (hinv.1 e he).1
  · rw [hout]
    exact hinv.2
  · have hnodup : ((parse_panas_output text).map
        (fun e => normalize_emotion_name e.feeling)).Nodup := by
      rw [hout]; exact hinv.2
    have hsub : ((parse_panas_output text).map
        (fun e => normalize_emotion_name e.feeling)) ⊆ emotion_map_keys := by
      intro kk hkk
      obtain ⟨e, he, rfl⟩ := List.mem_map.mp hkk
      rw [hout] at he
      exact (hinv.1 e he).1.1
    have hlen := (hnodup.subperm hsub).length_le
    simpa using hlen
  · intro s hs
    unfold extract_score
    rw [hs]
    rfl

/-- C10 witness: the concrete line "Interested, shows curiosity, 2"
parses to an entry whose normalized name is in the vocabulary with its
score within bounds. -/
theorem C10_parse_invariants_witness :
    normalize_emotion_name
        (Emotion.feeling
          ({ feeling := "Interested", explanation := "shows curiosity",
             score := 2 } : Emotion))
        ∈ emotion_map_keys
      ∧ 1 ≤ Emotion.score
          ({ feeling := "Interested", explanation := "shows curiosity",
             score := 2 } : Emotion)
      ∧ Emotion.score
          ({ feeling := "Interested", explanation := "shows curiosity",
             score := 2 } : Emotion) ≤ 5 :=
  (C10_parse_invariants "Interested, shows curiosity, 2").1
    ({ feeling := "Interested", explanation := "shows curiosity",
       score := 2 } : Emotion)
    (by decide)

/-- C9 witness: from an empty history with the therapist as current
speaker, ordinary selection avoids the therapist and post-intervention
selection returns a participant. -/
theorem C9_scheduler_invariants_witness :
    intelligent_speaker_selection [] "Therapist" false (fun _ => "Therapist")
        ≠ "Therapist"
    ∧ (intelligent_speaker_selection [] "Therapist" true (fun _ => "Therapist")
          = "Patient A"
       ∨ intelligent_speaker_selection [] "Therapist" true (fun _ => "Therapist")
          = "Patient B") :=
  C9_scheduler_invariants [] "Therapist" (fun _ => "Therapist") (by decide)

end TherapySim
